import Mathlib

/-!
Verification of the Jishaku debugging cog (src/cog.py, src/exception_handling.py,
src/repl/__init__.py) against its natural-language specification.

The Python code is shallowly embedded: each command or method body that a claim
touches becomes an executable Lean function over explicit state.  Python objects
are restricted to the shapes the commands actually branch on: a produced REPL
value is either the Python `None` or a string (the terminal `else` rendering
branch of `jsk_python`); Discord embeds are serialised as the concatenation of
their visible text parts; a message send, a reaction, and a pushbullet security
alert are recorded as emission events.
-/

/-! ## Python-modelling helpers -/

/-- Character lists `needle`, `hay`: does `hay` start with `needle`? -/
def charsStartWith : List Char → List Char → Bool
  | [], _ => true
  | _ :: _, [] => false
  | a :: as, b :: bs => a == b && charsStartWith as bs

/-- Character lists `needle`, `hay`: does `needle` occur contiguously in `hay`? -/
def charsContain (needle : List Char) : List Char → Bool
  | [] => charsStartWith needle []
  | b :: bs => charsStartWith needle (b :: bs) || charsContain needle bs

/-- Python's substring containment test `needle in hay`. -/
def strContains (needle hay : String) : Bool :=
  charsContain needle.data hay.data

/-- Python truthiness of an optional string parameter (`None` and the empty
string are falsy, as in `jsk_cancel`'s `not name`). -/
def pyTruthyStr : Option String → Bool
  | Option.none => false
  | Option.some s => !(s == "")

/-- Zero-width space used by the source to defuse code-block fences. -/
def zws : String := "​"

/-- The backtick character. -/
def backtickChar : Char := ("`").data.headD (' ')

/-- The zero-width-space character. -/
def zwsChar : Char := zws.data.headD (' ')

/-- Replacement of every non-overlapping occurrence of two backticks by
backtick, zero-width space, backtick, scanning left to right. -/
def escapeBacktickChars : List Char → List Char
  | [] => []
  | [a] => [a]
  | a :: b :: rest =>
    if a == backtickChar && b == backtickChar then
      backtickChar :: zwsChar :: backtickChar :: escapeBacktickChars rest
    else a :: escapeBacktickChars (b :: rest)

/-- The source's double-backtick escaping, `.replace("``", "`​`")`
(src/cog.py line 426, src/exception_handling.py line 38). -/
def escapeBackticks (s : String) : String :=
  String.mk (escapeBacktickChars s.data)

/-- Splitting a character list at every occurrence of a separator character,
keeping empty segments, as Python's `str.split` with an explicit separator
does. -/
def splitChars (sep : Char) : List Char → List (List Char)
  | [] => [[]]
  | c :: cs =>
    let rest := splitChars sep cs
    if c == sep then [] :: rest
    else
      match rest with
      | [] => [[c]]
      | g :: gs => (c :: g) :: gs

/-- Python's `token.split('.')` (src/cog.py lines 384 and 485): the
dot-delimited pieces of the token, empty pieces included, and the whole token
when it contains no dot. -/
def pySplitDot (s : String) : List String :=
  (splitChars ('.') s.data).map String.mk

/-- Python's `str.strip()` with no argument: whitespace removed from both
ends. -/
def pyStrip (s : String) : String :=
  String.mk (((s.data.dropWhile Char.isWhitespace).reverse.dropWhile
    Char.isWhitespace).reverse)

/-- Python's character slicing `s[0:n]`. -/
def strTake (s : String) (n : Nat) : String := String.mk (s.data.take n)

/-! ## Data model -/

/-- Where a message is delivered: the invocation channel or the author's DMs. -/
inductive Dest
  | channel
  | authorDM
deriving DecidableEq

/-- Externally observable effects of one command invocation: a reaction added to
the invoking message, a message sent to a destination, or a pushbullet security
alert (src/cog.py lines 382, 387, 483, 488). -/
inductive Emission
  | react (emoji : String)
  | send (dest : Dest) (content : String)
  | alert (title : String)
deriving DecidableEq

/-- A value produced by the REPL executor: Python `None` or a string. -/
inductive PyResult
  | pynone
  | pystr (s : String)
deriving DecidableEq

/-- Python `str(result)`. -/
def PyResult.strOf : PyResult → String
  | .pynone => "None"
  | .pystr s => s

/-- Python `repr(result)` (strings shown quoted; quote-escaping inside the
string is not modelled). -/
def PyResult.reprOf : PyResult → String
  | .pynone => "None"
  | .pystr s => "\x27" ++ s ++ "\x27"

/-- Python `result.__class__.__name__`. -/
def PyResult.typeName : PyResult → String
  | .pynone => "NoneType"
  | .pystr _ => "str"

/-- One entry of `self.tasks` — `CommandTask(index, ctx, task)`
(src/cog.py line 62).  The context is represented by the invoked command's
qualified name, which is all `jsk_cancel` reads from it; the asyncio task is
represented by its registry index, recorded when its `.cancel()` is invoked. -/
structure CommandTask where
  index : Nat
  cmdName : String
deriving DecidableEq

/-- A scope is the user-assigned variable bindings of one REPL session,
newest binding first. -/
abbrev Scope := List (String × String)

/-- Lookup of a binding in a scope (first match wins, so later assignments
shadow earlier ones). -/
def Scope.lookup (sc : Scope) (x : String) : Option String :=
  match sc with
  | [] => Option.none
  | kv :: rest => if kv.1 == x then Option.some kv.2 else Scope.lookup rest x

/-- Modelled from the spec: the executor (`jishaku.repl.AsyncCodeExecutor`,
not under src/) writes each user assignment back into the scope it was given,
later assignments shadowing earlier ones; the one-shot injected variables are
never merged back. -/
def Scope.writeBack (sc : Scope) (assigns : List (String × String)) : Scope :=
  assigns.foldl (fun acc kv => kv :: acc) sc

/-- The mutable state of the `Jishaku` cog that the verified commands touch
(src/cog.py lines 74-85): the retention flag, the stored `_scope`, the
`last_result` carry-over (initially Python `None`), the task registry and its
monotonic counter. -/
structure CogState where
  retain : Bool
  scopeStore : Scope
  last_result : PyResult
  tasks : List CommandTask
  task_count : Nat
deriving DecidableEq

/-- The cog's state right after `__init__` (src/cog.py lines 74-85), with the
`JISHAKU_RETAIN` environment toggle left at its default (unset, hence off). -/
def initialCogState : CogState :=
  { retain := false, scopeStore := [], last_result := PyResult.pynone,
    tasks := [], task_count := 0 }

/-- The `Jishaku.scope` property (src/cog.py lines 87-98): the stored scope
when retention is on, otherwise a fresh empty `Scope`. -/
def Jishaku.scopeProperty (st : CogState) : Scope :=
  if st.retain then st.scopeStore else []

/-- The per-call injection `arg_dict["_"] = self.last_result`
(src/cog.py lines 367 and 474). -/
def argDictUnderscore (st : CogState) : PyResult := st.last_result

/-- The `jsk retain` command (src/cog.py lines 336-354); returns the new state
and the reply text.  Toggling retention on replaces the stored scope with a
fresh one. -/
def jsk_retain (st : CogState) (toggle : Bool) : CogState × String :=
  if toggle then
    if st.retain then (st, "Variable retention is already set to ON.")
    else ({ st with retain := true, scopeStore := [] },
          "Variable retention is ON. Future REPL sessions will retain their scope.")
  else
    if !st.retain then (st, "Variable retention is already set to OFF.")
    else ({ st with retain := false },
          "Variable retention is OFF. Future REPL sessions will dispose their scope when done.")

/-! ## The task-cancellation command -/

/-- Replies `jsk_cancel` can produce (src/cog.py lines 307-334). -/
inductive CancelReply
  | noTasks
  | successBulk
  | unknown
  | cancelled (idx : Nat) (cmd : String)
deriving DecidableEq

/-- Outcome of one `jsk_cancel` invocation: the registry afterwards, the indices
of the tasks whose asyncio `.cancel()` handle was actually invoked, and the
reply sent. -/
structure CancelOut where
  tasks : List CommandTask
  cancelledHandles : List Nat
  reply : CancelReply
deriving DecidableEq

/-- The `jsk cancel` command body (src/cog.py lines 307-334), translated
statement by statement.  Note the source's control flow: the first `if`
(`index == -1 and not name`) pops the last task, and is chained to a separate
`if`/`else` pair — not an `elif` — so after the pop the `else` branch still
runs `discord.utils.get(self.tasks, index=index)` looking for a task whose
stored index equals `-1`. -/
def jsk_cancel (tasks : List CommandTask) (index : Int) (name : Option String) :
    CancelOut :=
  if tasks.isEmpty then
    { tasks := tasks, cancelledHandles := [], reply := CancelReply.noTasks }
  else
    let doPop := (index == -1) && !(pyTruthyStr name)
    let tasks1 := if doPop then tasks.dropLast else tasks
    if (index == -1) && pyTruthyStr name then
      { tasks := tasks1.filter (fun t => !(t.cmdName == name.getD (""))),
        cancelledHandles := [], reply := CancelReply.successBulk }
    else
      match tasks1.find? (fun t => (Int.ofNat t.index) == index) with
      | Option.some t =>
          { tasks := tasks1.erase t, cancelledHandles := [t.index],
            reply := CancelReply.cancelled t.index t.cmdName }
      | Option.none =>
          { tasks := tasks1, cancelledHandles := [], reply := CancelReply.unknown }

/-! ## The direct-evaluation command `jsk py` -/

/-- The fixed redaction marker assigned (but never sent) when a produced value
matches the secret token (src/cog.py lines 381, 386, 482, 487). -/
def REDACTED : String := "[result hidden for security reasons]"

/-- Title of the pushbullet security alert (src/cog.py lines 382, 387, 483, 488). -/
def TOKEN_ALERT_TITLE : String := "Attempted Token Leak"

/-- The combined redaction scan of the evaluation loops (src/cog.py lines
380-388 and 481-489): the whole token occurring in the string form of the
result, or any piece of `token.split('.')` occurring in it. -/
def tokenMatches (token resultstr : String) : Bool :=
  strContains token resultstr
    || (pySplitDot token).any (fun x => strContains x resultstr)

/-- Text of the small "Evaluation Complete" embed of `jsk py`
(src/cog.py lines 451-454); an embed is serialised as its visible text parts
joined in order (timing footer omitted). -/
def evalCompleteEmbedSmall (input result resulttype : String) : String :=
  "Evaluation Complete\nOutput Type: " ++ resulttype ++
    "\nInput:\n```py\n" ++ input ++ "```" ++
    "\nOutput:\n```py\n" ++ result ++ "```"

/-- Text of the "Evaluation Complete" embed of `jsk py` for oversized results
(src/cog.py lines 433-435); the result itself follows in a separate paginator
message. -/
def evalCompleteEmbedLarge (input resulttype : String) : String :=
  "Evaluation Complete\nOutput Type: " ++ resulttype ++
    "\nInput:\n```py\n" ++ input ++ "```"

/-- Result of processing a single produced value inside a command's
`async for` loop: the updated cog state, the emissions produced, and whether
the command body returned early. -/
structure StepOut where
  state : CogState
  emissions : List Emission
  halted : Bool
deriving DecidableEq

/-- One iteration of the `jsk py` result loop (src/cog.py lines 372-459).
`None` results are skipped before any processing.  For other results the
source stores the raw result into `self.last_result` *before* the redaction
scan; on a match it rebinds the local `result` to the redaction marker (a dead
store), fires one pushbullet alert and returns from the command without
sending anything.  Otherwise the terminal string-rendering branch runs (the
`discord.File`/`Embed`/`PaginatorInterface`/`Message` branches do not apply to
string results; message-edit reuse of a previous evaluation message is
abstracted into a plain channel send of the same content). -/
def pyEvalStep (token input : String) (st : CogState) : PyResult → StepOut
  | PyResult.pynone => { state := st, emissions := [], halted := false }
  | PyResult.pystr s =>
    let resultstr := s
    let st1 := { st with last_result := PyResult.pystr s }
    if strContains token resultstr then
      { state := st1, emissions := [Emission.alert TOKEN_ALERT_TITLE], halted := true }
    else if (pySplitDot token).any (fun x => strContains x resultstr) then
      { state := st1, emissions := [Emission.alert TOKEN_ALERT_TITLE], halted := true }
    else
      let result := escapeBackticks s
      if result.length > 1024 then
        { state := st1,
          emissions := [Emission.send Dest.channel (evalCompleteEmbedLarge input ((PyResult.pystr s).typeName)),
                        Emission.send Dest.channel ("```py\n" ++ result ++ "```")],
          halted := false }
      else
        let result := if pyStrip result == "" then zws else result
        { state := st1,
          emissions := [Emission.send Dest.channel (evalCompleteEmbedSmall input result ((PyResult.pystr s).typeName))],
          halted := false }

/-- The whole `async for result in AsyncCodeExecutor(...)` loop of `jsk py`
over the sequence of produced values: threads the state, concatenates the
emissions, and stops at an early return. -/
def pyEvalRun (token input : String) (st : CogState) : List PyResult → CogState × List Emission
  | [] => (st, [])
  | r :: rs =>
    let o := pyEvalStep token input st r
    if o.halted then (o.state, o.emissions)
    else
      let rest := pyEvalRun token input o.state rs
      (rest.1, o.emissions ++ rest.2)

/-- One executor run as the claims see it: the user-assigned bindings the
snippet writes (in program order) and the values it yields. -/
structure Execution where
  assigns : List (String × String)
  results : List PyResult
deriving DecidableEq

/-- The `jsk py` command body (src/cog.py lines 356-459).  `self.scope` is
read once up front; with retention on it aliases the stored `_scope`, so the
executor's write-back lands in the cog state, while with retention off the
fresh scope is discarded.  `self.submit` registers a task for the duration of
the run and removes it in its `finally`, leaving `task_count` incremented. -/
def jsk_python (token : String) (st : CogState) (input : String) (ex : Execution) :
    CogState × List Emission :=
  let scope0 := Jishaku.scopeProperty st
  let st1 := { st with task_count := st.task_count + 1 }
  let run := pyEvalRun token input st1 ex.results
  let finalScope := Scope.writeBack scope0 ex.assigns
  let st2 := if st.retain then { run.1 with scopeStore := finalScope } else run.1
  (st2, run.2)

/-! ## The inspect-evaluation command `jsk py_inspect` -/

/-- Modelled from the spec: the Inspector (`jishaku.repl.inspections`, not
under src/) is an ordered list of independent probes, each yielding one
`(label, text)` row; the type probe comes first and a size probe follows.
Only the row structure matters to the claims, not the concrete probes. -/
def all_inspections (typeName strForm : String) : List (String × String) :=
  [("Type", typeName), ("String Length", toString strForm.length)]

/-- Python's `f"{name:16.16}"`: truncate to 16 characters and pad to 16. -/
def pad16 (s : String) : String :=
  let t := strTake s 16
  t ++ String.mk (List.replicate (16 - t.length) (' '))

/-- The inspection code block built around a header and an inspection table
(src/cog.py lines 496-501, src/exception_handling.py lines 150-155). -/
def inspectionBlock (typeName strForm header : String) : String :=
  String.intercalate ("\n")
    ((("```prolog\n=== " ++ header ++ " ===\n") ::
      (all_inspections typeName strForm).map (fun nr => pad16 nr.1 ++ " :: " ++ nr.2)) ++
      [("```")])

/-- Header of the inspection block for a produced value: `repr(result)` with
backticks escaped, truncated at 485 characters (src/cog.py lines 491-494). -/
def inspectHeader (r : PyResult) : String :=
  let header := escapeBackticks r.reprOf
  if header.length > 485 then strTake header 482 ++ "..." else header

/-- Text of the "Evaluation Complete" embed of `jsk py_inspect`
(src/cog.py lines 503-506). -/
def inspectCompleteEmbed (input body : String) : String :=
  "Evaluation Complete\nInput:\n```py\n" ++ input ++ "```" ++ "\nOutput:\n" ++ body

/-- One iteration of the `jsk py_inspect` result loop (src/cog.py lines
478-506).  Unlike `jsk py`, there is no `None` skip: every result — including
Python `None` — is stringified, stored into `self.last_result`, scanned, and
(when clean) rendered through the inspection embed. -/
def pyInspectStep (token input : String) (st : CogState) (r : PyResult) : StepOut :=
  let resultstr := r.strOf
  let st1 := { st with last_result := r }
  if strContains token resultstr then
    { state := st1, emissions := [Emission.alert TOKEN_ALERT_TITLE], halted := true }
  else if (pySplitDot token).any (fun x => strContains x resultstr) then
    { state := st1, emissions := [Emission.alert TOKEN_ALERT_TITLE], halted := true }
  else
    { state := st1,
      emissions := [Emission.send Dest.channel
        (inspectCompleteEmbed input (inspectionBlock r.typeName r.strOf (inspectHeader r)))],
      halted := false }

/-- The `async for` loop of `jsk py_inspect` over the produced values. -/
def pyInspectRun (token input : String) (st : CogState) : List PyResult → CogState × List Emission
  | [] => (st, [])
  | r :: rs =>
    let o := pyInspectStep token input st r
    if o.halted then (o.state, o.emissions)
    else
      let rest := pyInspectRun token input o.state rs
      (rest.1, o.emissions ++ rest.2)

/-- The author id hard-blocked by `jsk py_inspect` (src/cog.py line 466). -/
def GEEK_ID : Nat := 376817315830038530

/-- The refusal message sent to the blocked author (src/cog.py line 467). -/
def geekRefusal : String :=
  "No eval for you buddy!!! This is my bot, this is MY land, you CANNOT come close to the might of Geek"

/-- The `jsk py_inspect` body after the author-id guard (src/cog.py lines
469-506): identical scope/submit setup to `jsk py`, with the inspection
rendering loop. -/
def jskInspectBody (token : String) (st : CogState) (input : String) (ex : Execution) :
    CogState × List Emission :=
  let scope0 := Jishaku.scopeProperty st
  let st1 := { st with task_count := st.task_count + 1 }
  let run := pyInspectRun token input st1 ex.results
  let finalScope := Scope.writeBack scope0 ex.assigns
  let st2 := if st.retain then { run.1 with scopeStore := finalScope } else run.1
  (st2, run.2)

/-- The `jsk py_inspect` command (src/cog.py lines 461-506): the author-id
guard runs before `get_var_dict_from_ctx`, the scope read, `submit`, and the
executor ever start. -/
def jsk_python_inspect (token : String) (st : CogState) (authorId : Nat)
    (input : String) (ex : Execution) : CogState × List Emission :=
  if authorId = GEEK_ID then
    (st, [Emission.send Dest.channel geekRefusal])
  else
    jskInspectBody token st input ex

/-! ## Exception handling (src/exception_handling.py) -/

/-- The exception classes `ReplResponseReactor.__aexit__` distinguishes by
`isinstance` (src/exception_handling.py lines 137 and 163), plus
`CancelledError` and a catch-all for anything else, which both land in the
final `else`. -/
inductive ExcKind
  | discordException
  | nameError
  | attributeError
  | zeroDivisionError
  | syntaxError
  | timeoutError
  | timeoutExpired
  | cancelledError
  | otherError
deriving DecidableEq

/-- Python `exc_val.__class__.__name__`. -/
def ExcKind.className : ExcKind → String
  | .discordException => "DiscordException"
  | .nameError => "NameError"
  | .attributeError => "AttributeError"
  | .zeroDivisionError => "ZeroDivisionError"
  | .syntaxError => "SyntaxError"
  | .timeoutError => "TimeoutError"
  | .timeoutExpired => "TimeoutExpired"
  | .cancelledError => "CancelledError"
  | .otherError => "Exception"

/-- An in-flight exception: its class and its `str(exc_val)` text. -/
structure Exc where
  kind : ExcKind
  text : String
deriving DecidableEq

/-- The first `isinstance` test of `ReplResponseReactor.__aexit__`
(src/exception_handling.py line 137): `discord.DiscordException`, `NameError`,
`AttributeError` or `ZeroDivisionError`. -/
def isUserCodeError : ExcKind → Bool
  | .discordException => true
  | .nameError => true
  | .attributeError => true
  | .zeroDivisionError => true
  | _ => false

/-- The second `isinstance` test (src/exception_handling.py line 163):
`SyntaxError`, `asyncio.TimeoutError` or `subprocess.TimeoutExpired`.
`asyncio.CancelledError` is none of these classes, so a cancellation falls
through to the final `else`. -/
def isShortTracebackError : ExcKind → Bool
  | .syntaxError => true
  | .timeoutError => true
  | .timeoutExpired => true
  | _ => false

/-- Output of `traceback.format_exception(etype, value, trace, verbosity)` as
`send_traceback` renders it (src/exception_handling.py line 38): a frame
region whose depth is the verbosity argument, ending in the
`ClassName: text` line, with double backticks escaped.  The stack frames
themselves are abstracted into a marker recording the requested depth. -/
def tracebackText (verbosity : Nat) (e : Exc) : String :=
  escapeBackticks
    ("Traceback (most recent call last, depth " ++ toString verbosity ++ "):\n"
      ++ e.kind.className ++ ": " ++ e.text)

/-- One page of `send_traceback` output (src/exception_handling.py lines
40-47): the paginator wraps the traceback in a `py` code block. -/
def tracebackPage (verbosity : Nat) (e : Exc) : String :=
  "```py\n" ++ tracebackText verbosity e ++ "\n```"

/-- `send_traceback(destination, verbosity, *exc_info)`
(src/exception_handling.py lines 24-49) as a single send emission. -/
def send_traceback (dest : Dest) (verbosity : Nat) (e : Exc) : Emission :=
  Emission.send dest (tracebackPage verbosity e)

/-- The check reaction added on success (src/exception_handling.py line 109). -/
def CHECK_EMOJI : String := "<:check:674359197378281472>"

/-- The xmark reaction; all three failure branches of
`ReactionProcedureTimer.__aexit__` add this same emoji
(src/exception_handling.py lines 114-122). -/
def XMARK_EMOJI : String := "<:xmark:674359427830382603>"

/-- Reactions added by `ReactionProcedureTimer.__aexit__`
(src/exception_handling.py lines 103-122) after cancelling the pending
handle: a check mark when no exception is live, otherwise the xmark (the
timeout, syntax-error and other-error branches all use the same emoji). -/
def procedureTimerExitEmissions : Option Exc → List Emission
  | Option.none => [Emission.react CHECK_EMOJI]
  | Option.some _ => [Emission.react XMARK_EMOJI]

/-- A Python return value that is either `None` or a proper boolean.
`ReplResponseReactor.__aexit__` ends in a bare `return` on the no-exception
path and `return True` otherwise; the async context-manager protocol
suppresses the exception exactly when the returned value is truthy. -/
inductive PyRet
  | pynone
  | pybool (b : Bool)
deriving DecidableEq

/-- Python truthiness of the `__aexit__` return value. -/
def PyRet.truthy : PyRet → Bool
  | .pynone => false
  | .pybool b => b

/-- Text of the "Evaluation Unsuccessful" embed sent when a user-code error
is raised under the `py` command (src/exception_handling.py lines 140-144):
the exception class, the input block when an argument was captured, and
`str(exc_val)` in the output block — with no redaction scan. -/
def evalUnsuccessfulEmbedPy (argContent : Option String) (e : Exc) : String :=
  "Evaluation Unsuccessful\nException: " ++ e.kind.className ++
    (match argContent with
     | Option.some a => "\nInput:\n```py\n" ++ a ++ "```"
     | Option.none => "") ++
    "\nOutput:\n```py\n" ++ e.text ++ "```"

/-- Header of the inspection block for an exception: `str(exc_val)` truncated
at 485 characters (src/exception_handling.py lines 146-148). -/
def excHeader (e : Exc) : String :=
  if e.text.length > 485 then strTake e.text 482 ++ "..." else e.text

/-- Text of the "Evaluation Unsuccessful" embed sent when a user-code error is
raised under the `py_inspect` command (src/exception_handling.py lines
145-160): inspection rows over the exception value, again unredacted. -/
def evalUnsuccessfulEmbedInspect (argContent : Option String) (e : Exc) : String :=
  "Evaluation Unsuccessful\nException: " ++ e.kind.className ++
    (match argContent with
     | Option.some a => "\nInput:\n```py\n" ++ a ++ "```"
     | Option.none => "") ++
    "\nOutput:\n" ++ inspectionBlock e.kind.className e.text (excHeader e)

/-- `ReplResponseReactor.__aexit__` (src/exception_handling.py lines 130-170):
first the superclass reactions, then — when an exception is live — the
classification tree.  User-code errors are rendered inline as an embed only
under the `py` and `py_inspect` commands and otherwise DM'd to the author at
verbosity 8; syntax errors and timeouts get a verbosity-0 traceback in the
channel; everything else (including `CancelledError`) is DM'd to the author at
verbosity 8.  The method returns `True` whenever an exception was handled and
plain `None` otherwise. -/
def replReactorExit (cmdName : String) (argContent : Option String)
    (exc : Option Exc) : List Emission × PyRet :=
  let reactions := procedureTimerExitEmissions exc
  match exc with
  | Option.none => (reactions, PyRet.pynone)
  | Option.some e =>
    if isUserCodeError e.kind then
      if cmdName == ("py") then
        (reactions ++ [Emission.send Dest.channel (evalUnsuccessfulEmbedPy argContent e)],
         PyRet.pybool true)
      else if cmdName == ("py_inspect") then
        (reactions ++ [Emission.send Dest.channel (evalUnsuccessfulEmbedInspect argContent e)],
         PyRet.pybool true)
      else
        (reactions ++ [send_traceback Dest.authorDM 8 e], PyRet.pybool true)
    else if isShortTracebackError e.kind then
      (reactions ++ [send_traceback Dest.channel 0 e], PyRet.pybool true)
    else
      (reactions ++ [send_traceback Dest.authorDM 8 e], PyRet.pybool true)

/-! ## The deferred pending indicator -/

/-- The grace delay of the deferred pending reaction: `do_after_sleep(1, ...)`
(src/exception_handling.py line 99). -/
def jskPendingDelay : Nat := 1

/-- The two event-loop callbacks of a `ReactionProcedureTimer` lifetime: the
`do_after_sleep` task waking up at `jskPendingDelay`, and `__aexit__` running
when the wrapped block finishes. -/
inductive LoopEv
  | fireHandle
  | exitBlock
deriving DecidableEq

/-- Timer-relevant state of one reactor lifetime: whether `handle.cancel()`
has been invoked, and whether the pending reaction was actually added. -/
structure TimerState where
  handleCancelled : Bool
  pendingShown : Bool
deriving DecidableEq

/-- Processing one event-loop callback: the sleeping handle adds the pending
reaction only if it has not been cancelled (a cancelled `do_after_sleep` is
unwound inside its sleep and never calls the coroutine); `__aexit__` cancels
the handle first thing (src/exception_handling.py lines 98-105). -/
def timerStep (s : TimerState) : LoopEv → TimerState
  | LoopEv.fireHandle => if s.handleCancelled then s else { s with pendingShown := true }
  | LoopEv.exitBlock => { s with handleCancelled := true }

/-- The callbacks of one reactor lifetime in timeline order, for a wrapped
operation that finishes `opDuration` time-units after entry: when the block
finishes before the grace delay its `__aexit__` runs before the sleep wakes,
otherwise the sleep wakes first. -/
def timerEvents (opDuration : Nat) : List LoopEv :=
  if opDuration < jskPendingDelay then [LoopEv.exitBlock, LoopEv.fireHandle]
  else [LoopEv.fireHandle, LoopEv.exitBlock]

/-- One full `ReactionProcedureTimer` lifetime starting from entry
(`__aenter__` schedules the handle; nothing is yet cancelled or shown). -/
def timerRun (opDuration : Nat) : TimerState :=
  (timerEvents opDuration).foldl timerStep { handleCancelled := false, pendingShown := false }

/-! ## Slot layout of the reactor classes -/

/-- The attribute-assignment surface of a Python class: the `__slots__` names
usable on instances, and whether instances carry a `__dict__` (a class whose
body declares `__slots__` and inherits from a no-dict class has none; a
subclass that declares no `__slots__` of its own regains a `__dict__`). -/
structure PyClassLayout where
  slots : List String
  hasInstanceDict : Bool
deriving DecidableEq

/-- `ReactionProcedureTimer` declares
`__slots__ = ('message', 'loop', 'handle', 'raised')`
(src/exception_handling.py line 88), so its instances have no `__dict__`. -/
def ReactionProcedureTimer.layout : PyClassLayout :=
  { slots := [("message"), ("loop"), ("handle"), ("raised")], hasInstanceDict := false }

/-- `ReplResponseReactor` subclasses `ReactionProcedureTimer` without a
`__slots__` declaration of its own (src/exception_handling.py lines 125-128),
so its instances gain an instance `__dict__` while keeping the parent slots. -/
def ReplResponseReactor.layout : PyClassLayout :=
  { slots := [("message"), ("loop"), ("handle"), ("raised")], hasInstanceDict := true }

/-- Python `setattr` admissibility: assignment to `name` on an instance
succeeds iff the instance has a `__dict__` or `name` is a declared slot. -/
def setattrAllowed (c : PyClassLayout) (a : String) : Bool :=
  c.hasInstanceDict || c.slots.contains a

/-- How constructing an instance ends: all assignments succeeded (listing the
attributes bound, in order), or the first failing assignment raised
`AttributeError` naming that attribute. -/
inductive PyInitOutcome
  | ok (assigned : List String)
  | attributeError (attrName : String)
deriving DecidableEq

/-- Running a sequence of attribute assignments left to right, stopping at the
first one Python would reject. -/
def runInitAssigns (c : PyClassLayout) : List String → PyInitOutcome
  | [] => PyInitOutcome.ok []
  | a :: rest =>
    if setattrAllowed c a then
      match runInitAssigns c rest with
      | PyInitOutcome.ok tail => PyInitOutcome.ok (a :: tail)
      | e => e
    else PyInitOutcome.attributeError a

/-- The attribute assignments performed by `ReactionProcedureTimer.__init__`,
in source order (src/exception_handling.py lines 90-96): `self.ctx`,
`self.message`, `self.loop`, `self.argument`, `self.handle`, `self.raised`. -/
def procedureTimerInitAttrs : List String :=
  [("ctx"), ("message"), ("loop"), ("argument"), ("handle"), ("raised")]

/-- `ReactionProcedureTimer.__init__` run against a given class layout (the
base class itself, or the `ReplResponseReactor` subclass, which inherits the
method unchanged). -/
def ReactionProcedureTimer.init (c : PyClassLayout) : PyInitOutcome :=
  runInitAssigns c procedureTimerInitAttrs

/-! ## Observation helpers over emission lists -/

/-- Is an emission the pushbullet security alert? -/
def isAlert : Emission → Bool
  | Emission.alert _ => true
  | _ => false

/-- Number of security alerts in an emission list. -/
def countAlerts (es : List Emission) : Nat := (es.filter isAlert).length

/-- The message sends of an emission list, in order, as destination/content
pairs (reactions and alerts are not message renders). -/
def sendsOf (es : List Emission) : List (Dest × String) :=
  es.filterMap (fun em =>
    match em with
    | Emission.send d c => Option.some (d, c)
    | _ => Option.none)

/-- Does some send in the list render the given secret token verbatim, i.e.
contain it while not being the fixed redaction marker? -/
def rendersUnredactedToken (token : String) (es : List Emission) : Bool :=
  es.any (fun em =>
    match em with
    | Emission.send _ c => strContains token c && !(c == REDACTED)
    | _ => false)

/-- The error-routing policy as the code actually implements it, stated from
the amended claim: user-code errors (Discord/name/attribute/zero-division) are
rendered inline in the channel only under the `py` and `py_inspect` commands
and otherwise sent to the author's DMs at verbosity 8; syntax errors and
timeouts produce a verbosity-0 traceback in the channel; cancellation and
every other error goes to the author's DMs at verbosity 8. -/
def amendedRoutingPolicy (cmdName : String) (argContent : Option String)
    (e : Exc) : Dest × String :=
  if isUserCodeError e.kind then
    if cmdName == ("py") then (Dest.channel, evalUnsuccessfulEmbedPy argContent e)
    else if cmdName == ("py_inspect") then
      (Dest.channel, evalUnsuccessfulEmbedInspect argContent e)
    else (Dest.authorDM, tracebackPage 8 e)
  else if isShortTracebackError e.kind then (Dest.channel, tracebackPage 0 e)
  else (Dest.authorDM, tracebackPage 8 e)

/-! ## Helper lemmas -/

theorem countAlerts_append (a b : List Emission) :
    countAlerts (a ++ b) = countAlerts a + countAlerts b := by
  simp [countAlerts, List.filter_append]

theorem pyEvalStep_token_halt (token input : String) (st : CogState) (s : String)
    (h : tokenMatches token s = true) :
    pyEvalStep token input st (PyResult.pystr s) =
      { state := { st with last_result := PyResult.pystr s },
        emissions := [Emission.alert TOKEN_ALERT_TITLE], halted := true } := by
  unfold tokenMatches at h
  by_cases h1 : strContains token s = true
  · simp [pyEvalStep, h1]
  · have h1f : strContains token s = false := by simpa using h1
    rw [h1f, Bool.false_or] at h
    simp [pyEvalStep, h1f, h]

theorem pyInspectStep_token_halt (token input : String) (st : CogState) (s : String)
    (h : tokenMatches token s = true) :
    pyInspectStep token input st (PyResult.pystr s) =
      { state := { st with last_result := PyResult.pystr s },
        emissions := [Emission.alert TOKEN_ALERT_TITLE], halted := true } := by
  unfold tokenMatches at h
  by_cases h1 : strContains token s = true
  · simp [pyInspectStep, PyResult.strOf, h1]
  · have h1f : strContains token s = false := by simpa using h1
    rw [h1f, Bool.false_or] at h
    simp [pyInspectStep, PyResult.strOf, h1f, h]

theorem pyEvalStep_alert_bound (token input : String) (st : CogState) (r : PyResult) :
    countAlerts (pyEvalStep token input st r).emissions ≤ 1
      ∧ ((pyEvalStep token input st r).halted = false →
          countAlerts (pyEvalStep token input st r).emissions = 0) := by
  cases r with
  | pynone => simp [pyEvalStep, countAlerts]
  | pystr s =>
    simp only [pyEvalStep]
    split_ifs <;> simp [countAlerts, isAlert]

theorem pyEvalRun_alert_bound (token input : String) (rs : List PyResult) :
    ∀ st : CogState, countAlerts (pyEvalRun token input st rs).2 ≤ 1 := by
  induction rs with
  | nil => intro st; simp [pyEvalRun, countAlerts]
  | cons r t ih =>
    intro st
    unfold pyEvalRun
    by_cases hh : (pyEvalStep token input st r).halted = true
    · simp only [hh, if_true]
      exact (pyEvalStep_alert_bound token input st r).1
    · have hb : (pyEvalStep token input st r).halted = false := by
        simpa using hh
      simp only [hb, Bool.false_eq_true, if_false]
      rw [countAlerts_append, (pyEvalStep_alert_bound token input st r).2 hb]
      simpa using ih (pyEvalStep token input st r).state

theorem pyEvalStep_preserves (token input : String) (st : CogState) (r : PyResult) :
    (pyEvalStep token input st r).state.retain = st.retain
      ∧ (pyEvalStep token input st r).state.scopeStore = st.scopeStore := by
  cases r with
  | pynone => simp [pyEvalStep]
  | pystr s =>
    simp only [pyEvalStep]
    split_ifs <;> simp

theorem pyEvalRun_preserves (token input : String) (rs : List PyResult) :
    ∀ st : CogState, (pyEvalRun token input st rs).1.retain = st.retain
      ∧ (pyEvalRun token input st rs).1.scopeStore = st.scopeStore := by
  induction rs with
  | nil => intro st; simp [pyEvalRun]
  | cons r t ih =>
    intro st
    unfold pyEvalRun
    by_cases hh : (pyEvalStep token input st r).halted = true
    · simp only [hh, if_true]
      exact pyEvalStep_preserves token input st r
    · have hb : (pyEvalStep token input st r).halted = false := by simpa using hh
      simp only [hb, Bool.false_eq_true, if_false]
      have hs := pyEvalStep_preserves token input st r
      have hr := ih (pyEvalStep token input st r).state
      exact ⟨hr.1.trans hs.1, hr.2.trans hs.2⟩

theorem Scope.writeBack_lookup_of_not_assigned (sc : Scope)
    (assigns : List (String × String)) (x : String)
    (h : x ∉ assigns.map Prod.fst) :
    Scope.lookup (Scope.writeBack sc assigns) x = Scope.lookup sc x := by
  induction assigns generalizing sc with
  | nil => rfl
  | cons kv t ih =>
    simp only [List.map_cons, List.mem_cons, not_or] at h
    obtain ⟨hx1, hxt⟩ := h
    have hfold : Scope.writeBack sc (kv :: t) = Scope.writeBack (kv :: sc) t := rfl
    rw [hfold, ih (kv :: sc) hxt]
    have hbeq : (kv.1 == x) = false := by
      simp only [beq_eq_false_iff_ne, ne_eq]
      exact fun he => hx1 he.symm
    simp [Scope.lookup, hbeq]

theorem jsk_python_scopeProperty (token input : String) (st : CogState) (ex : Execution) :
    Jishaku.scopeProperty ((jsk_python token st input ex).1)
      = (if st.retain then Scope.writeBack (Jishaku.scopeProperty st) ex.assigns
         else []) := by
  have hpres := pyEvalRun_preserves token input ex.results
    { st with task_count := st.task_count + 1 }
  simp only [] at hpres
  by_cases hr : st.retain = true
  · simp only [hr] at hpres ⊢
    simp only [jsk_python, hr, if_true]
    unfold Jishaku.scopeProperty
    simp [hpres.1, hr]
  · have hr' : st.retain = false := by simpa using hr
    simp only [hr'] at hpres ⊢
    simp only [jsk_python, hr', Bool.false_eq_true, if_false]
    unfold Jishaku.scopeProperty
    simp [hpres.1, hr']

theorem jsk_python_retain (token input : String) (st : CogState) (ex : Execution) :
    (jsk_python token st input ex).1.retain = st.retain := by
  have hpres := pyEvalRun_preserves token input ex.results
    { st with task_count := st.task_count + 1 }
  by_cases hr : st.retain = true
  · simp only [hr] at hpres ⊢
    simp [jsk_python, hr, hpres.1]
  · have hr' : st.retain = false := by simpa using hr
    simp only [hr'] at hpres ⊢
    simp [jsk_python, hr', hpres.1]

/-! ## Claim theorems -/

/-- C1 (counterexample): the claim fails on error text — the reactor renders
`str(exc_val)` with no token scan.  A `NameError` whose text is exactly the
secret token is sent verbatim (inside the "Evaluation Unsuccessful" embed)
under the `py` command, and zero security alerts fire. -/
theorem secret_scan_cex :
    rendersUnredactedToken ("SECRET")
        (replReactorExit ("py") (Option.some ("code"))
          (Option.some { kind := ExcKind.nameError, text := ("SECRET") })).1 = true
    ∧ countAlerts (replReactorExit ("py") (Option.some ("code"))
          (Option.some { kind := ExcKind.nameError, text := ("SECRET") })).1 = 0 := by
  decide

/-- C1 (amended): in the evaluation loops of `jsk py` and `jsk py_inspect` a
produced value whose string form contains the secret token or one of its
dot-delimited fragments is never rendered — the loop stores the raw value,
fires exactly one security alert, emits no send at all (not even the redaction
marker) and halts the invocation — and a whole invocation fires at most one
alert.  Error text rendered by the reactor is not scanned (see the
counterexample). -/
theorem secret_scan_amended (token input : String) (st : CogState) (s : String)
    (results : List PyResult)
    (h : tokenMatches token s = true) :
    pyEvalStep token input st (PyResult.pystr s) =
      { state := { st with last_result := PyResult.pystr s },
        emissions := [Emission.alert TOKEN_ALERT_TITLE], halted := true }
    ∧ countAlerts (pyEvalRun token input st results).2 ≤ 1 :=
  ⟨pyEvalStep_token_halt token input st s h,
   pyEvalRun_alert_bound token input results st⟩

/-- Witness for `secret_scan_amended`: token `SEC.RET`, whose fragment `SEC`
occurs in the produced value `xxSECyy`. -/
theorem secret_scan_amended_witness :
    tokenMatches ("SEC.RET") ("xxSECyy") = true
    ∧ (pyEvalStep ("SEC.RET") ("inp") initialCogState (PyResult.pystr ("xxSECyy")) =
        { state := { initialCogState with last_result := PyResult.pystr ("xxSECyy") },
          emissions := [Emission.alert TOKEN_ALERT_TITLE], halted := true }
      ∧ countAlerts (pyEvalRun ("SEC.RET") ("inp") initialCogState
          [PyResult.pystr ("hello")]).2 ≤ 1) :=
  ⟨by decide,
   secret_scan_amended ("SEC.RET") ("inp") initialCogState ("xxSECyy")
     [PyResult.pystr ("hello")] (by decide)⟩

/-- C2 (code bug): with a single live task, `jsk cancel -1` — the sentinel the
command's own docstring says "will cancel the last task" — removes the task
from the registry, invokes no cancel handle at all, and replies
"Unknown task.": the source's `if`/`if`/`else` chain pops the last task and
then still searches the registry for a task whose stored index equals `-1`. -/
theorem cancel_sentinel_bug_eval :
    jsk_cancel [{ index := 1, cmdName := ("py") }] (-1) Option.none =
      { tasks := [], cancelledHandles := [], reply := CancelReply.unknown } := by
  decide

/-- C3 (counterexample): a cancellation (`asyncio.CancelledError`) does not
get a short inline indicator — its only send is the verbosity-8 traceback to
the author's DMs, the escalated private channel. -/
theorem error_routing_cex :
    sendsOf (replReactorExit ("debug") Option.none
        (Option.some { kind := ExcKind.cancelledError, text := ("task cancelled") })).1
      = [(Dest.authorDM,
          tracebackPage 8 { kind := ExcKind.cancelledError, text := ("task cancelled") })]
    ∧ Dest.authorDM ≠ Dest.channel := by
  decide

/-- C3 (amended): on failure the reactor sends exactly one message, routed by
`amendedRoutingPolicy`: user-code errors (Discord/name/attribute/arithmetic)
are rendered inline in the channel only under the `py` and `py_inspect`
commands and otherwise go to the author's DMs at verbosity 8; syntax errors
and timeouts get a verbosity-0 traceback in the channel; cancellation and
every other error is escalated to the author's DMs at verbosity 8.  In every
case the exception is absorbed (`True` returned). -/
theorem error_routing_amended (cmdName : String) (argContent : Option String)
    (e : Exc) :
    sendsOf (replReactorExit cmdName argContent (Option.some e)).1
      = [amendedRoutingPolicy cmdName argContent e]
    ∧ (replReactorExit cmdName argContent (Option.some e)).2 = PyRet.pybool true := by
  simp only [replReactorExit, amendedRoutingPolicy, procedureTimerExitEmissions]
  split_ifs <;> simp [sendsOf, send_traceback]

/-- C4: with retention off, an invocation's user-assigned bindings are
invisible to the next invocation on the same cog (its scope starts empty);
with retention on, a binding holding `v` after invocation 1 is exactly what
invocation 2 reads, and it survives invocation 2 unchanged provided
invocation 2 does not reassign it. -/
theorem retention_semantics (token input : String) (st : CogState)
    (ex1 ex2 : Execution) (x v : String)
    (h1 : Scope.lookup
        (Jishaku.scopeProperty
          ((jsk_python token { st with retain := true } input ex1).1)) x
      = Option.some v)
    (h2 : x ∉ ex2.assigns.map Prod.fst) :
    Scope.lookup
        (Jishaku.scopeProperty
          ((jsk_python token { st with retain := false } input ex1).1)) x
      = Option.none
    ∧ Scope.lookup
        (Jishaku.scopeProperty
          ((jsk_python token
            ((jsk_python token { st with retain := true } input ex1).1)
            input ex2).1)) x
      = Option.some v := by
  constructor
  · rw [jsk_python_scopeProperty]
    simp [Scope.lookup]
  · rw [jsk_python_scopeProperty]
    have hret : (jsk_python token { st with retain := true } input ex1).1.retain
        = true := by
      rw [jsk_python_retain]
    rw [hret]
    simp only [if_true]
    rw [Scope.writeBack_lookup_of_not_assigned _ _ _ h2]
    exact h1

/-- Witness for `retention_semantics`: invocation 1 assigns `x := 1`,
invocation 2 assigns only `y := 2`. -/
theorem retention_semantics_witness :
    (Scope.lookup (Jishaku.scopeProperty
        ((jsk_python ("T") { initialCogState with retain := true } ("i")
          { assigns := [(("x"), ("1"))], results := [] }).1)) ("x")
      = Option.some ("1")
      ∧ ("x") ∉ ({ assigns := [(("y"), ("2"))], results := [] } : Execution).assigns.map Prod.fst)
    ∧ (Scope.lookup (Jishaku.scopeProperty
        ((jsk_python ("T") { initialCogState with retain := false } ("i")
          { assigns := [(("x"), ("1"))], results := [] }).1)) ("x")
      = Option.none
      ∧ Scope.lookup (Jishaku.scopeProperty
          ((jsk_python ("T")
            ((jsk_python ("T") { initialCogState with retain := true } ("i")
              { assigns := [(("x"), ("1"))], results := [] }).1) ("i")
            { assigns := [(("y"), ("2"))], results := [] }).1)) ("x")
      = Option.some ("1")) :=
  ⟨⟨by decide, by decide⟩,
   retention_semantics ("T") ("i") initialCogState
     { assigns := [(("x"), ("1"))], results := [] }
     { assigns := [(("y"), ("2"))], results := [] } ("x") ("1")
     (by decide) (by decide)⟩

/-- C5 (counterexample): `jsk py_inspect` does not suppress a produced
`None` — with a token that matches nothing, the `None` result is rendered
through the inspection embed and the loop continues. -/
theorem none_suppression_cex :
    (pyInspectStep ("ZZZ") ("inp") initialCogState PyResult.pynone).emissions ≠ []
    ∧ (pyInspectStep ("ZZZ") ("inp") initialCogState PyResult.pynone).halted = false := by
  decide

/-- C5 (amended): `jsk py` suppresses a produced `None` before any processing
(state untouched, nothing emitted, loop continues), but `jsk py_inspect`
always processes it, emitting either the inspection render or a security
alert. -/
theorem none_suppression_amended (token input : String) (st : CogState) :
    pyEvalStep token input st PyResult.pynone
      = { state := st, emissions := [], halted := false }
    ∧ (pyInspectStep token input st PyResult.pynone).emissions ≠ [] := by
  constructor
  · rfl
  · by_cases h1 : strContains token (PyResult.pynone.strOf) = true
    · simp [pyInspectStep, h1]
    · by_cases h2 : ((pySplitDot token).any fun x => strContains x (PyResult.pynone.strOf)) = true
      · simp [pyInspectStep, h1, h2]
      · simp [pyInspectStep, h1, h2]

/-- C6: the deferred pending indicator fires exactly when the wrapped
operation is still running once the 1 time-unit grace delay elapses, and
`__aexit__` always cancels the handle, so an operation finishing earlier never
shows a pending reaction. -/
theorem pending_indicator_timer (d : Nat) :
    (timerRun d).pendingShown = decide (jskPendingDelay ≤ d)
    ∧ (timerRun d).handleCancelled = true := by
  unfold timerRun timerEvents
  by_cases hd : d < jskPendingDelay
  · have h0 : d = 0 := by
      unfold jskPendingDelay at hd
      omega
    subst h0
    decide
  · have h1 : jskPendingDelay ≤ d := Nat.le_of_not_lt hd
    simp [hd, timerStep, h1]

/-- C7 (counterexample): when nothing went wrong the reactor's `__aexit__`
executes a bare `return`, yielding Python `None` — a falsy value, but not the
boolean `False` the claim states. -/
theorem reactor_return_cex :
    (replReactorExit ("py") Option.none Option.none).2 = PyRet.pynone
    ∧ PyRet.pynone ≠ PyRet.pybool false := by
  decide

/-- C7 (amended): the reactor's exit returns `True` — a truthy value, which
the async context-manager protocol takes as "suppress", so the caller resumes
as if the block exited normally — exactly when an exception was absorbed, and
returns `None` (falsy, but not the boolean `False`) when nothing went wrong;
truthiness of the returned value coincides with an exception having been
live. -/
theorem reactor_return_amended (cmdName : String) (argContent : Option String)
    (exc : Option Exc) :
    (replReactorExit cmdName argContent exc).2
      = (match exc with
         | Option.none => PyRet.pynone
         | Option.some _ => PyRet.pybool true)
    ∧ PyRet.truthy ((replReactorExit cmdName argContent exc).2) = exc.isSome := by
  cases exc with
  | none => exact ⟨rfl, rfl⟩
  | some e =>
    simp only [replReactorExit, Option.isSome]
    constructor
    · split_ifs <;> rfl
    · split_ifs <;> rfl

/-- C8: a produced value whose string form matches the secret token is stored
raw into `last_result` before the redaction check runs — in both `jsk py` and
`jsk py_inspect` — so the raw value, not the redaction marker, is what
`arg_dict["_"]` injects into the next evaluation invocation. -/
theorem last_result_leak (token input : String) (st : CogState) (s : String)
    (assigns : List (String × String)) (rest : List PyResult)
    (h : tokenMatches token s = true) :
    ((jsk_python token st input
        { assigns := assigns, results := PyResult.pystr s :: rest }).1.last_result
      = PyResult.pystr s)
    ∧ argDictUnderscore ((jsk_python token st input
        { assigns := assigns, results := PyResult.pystr s :: rest }).1)
      = PyResult.pystr s
    ∧ ((jsk_python_inspect token st 0 input
        { assigns := assigns, results := PyResult.pystr s :: rest }).1.last_result
      = PyResult.pystr s) := by
  have hstep := pyEvalStep_token_halt token input
    { st with task_count := st.task_count + 1 } s h
  have histep := pyInspectStep_token_halt token input
    { st with task_count := st.task_count + 1 } s h
  have hlast : (jsk_python token st input
      { assigns := assigns, results := PyResult.pystr s :: rest }).1.last_result
      = PyResult.pystr s := by
    simp only [jsk_python, pyEvalRun]
    rw [hstep]
    by_cases hr : st.retain = true <;> simp [hr]
  have hilast : (jsk_python_inspect token st 0 input
      { assigns := assigns, results := PyResult.pystr s :: rest }).1.last_result
      = PyResult.pystr s := by
    have hne : ¬ (0 : Nat) = GEEK_ID := by decide
    simp only [jsk_python_inspect]
    rw [if_neg hne]
    simp only [jskInspectBody, pyInspectRun]
    rw [histep]
    by_cases hr : st.retain = true <;> simp [hr]
  exact ⟨hlast, hlast, hilast⟩

/-- Witness for `last_result_leak`: token `SECRET` occurring in the single
produced value `xSECRETy`. -/
theorem last_result_leak_witness :
    tokenMatches ("SECRET") ("xSECRETy") = true
    ∧ (((jsk_python ("SECRET") initialCogState ("inp")
          { assigns := [], results := [PyResult.pystr ("xSECRETy")] }).1.last_result
        = PyResult.pystr ("xSECRETy"))
      ∧ argDictUnderscore ((jsk_python ("SECRET") initialCogState ("inp")
          { assigns := [], results := [PyResult.pystr ("xSECRETy")] }).1)
        = PyResult.pystr ("xSECRETy")
      ∧ ((jsk_python_inspect ("SECRET") initialCogState 0 ("inp")
          { assigns := [], results := [PyResult.pystr ("xSECRETy")] }).1.last_result
        = PyResult.pystr ("xSECRETy"))) :=
  ⟨by decide,
   last_result_leak ("SECRET") ("inp") initialCogState ("xSECRETy") [] [] (by decide)⟩

/-- C9: constructing `ReactionProcedureTimer` directly always raises
`AttributeError` — its `__init__`'s first assignment `self.ctx = ctx` targets
an attribute outside the declared `__slots__` of a class with no instance
`__dict__` — while the subclass `ReplResponseReactor`, whose instances regain
a `__dict__`, runs the inherited `__init__` to completion. -/
theorem reactor_slots_init :
    ReactionProcedureTimer.init ReactionProcedureTimer.layout
      = PyInitOutcome.attributeError ("ctx")
    ∧ ReactionProcedureTimer.init ReplResponseReactor.layout
      = PyInitOutcome.ok procedureTimerInitAttrs := by
  decide

/-- C10: `jsk py_inspect` invoked by author id 376817315830038530 sends only
the refusal message and returns the cog state untouched, with an outcome
independent of whatever the evaluation would have produced (so no compilation
or execution effect is observable); any other author id proceeds to the
evaluation body. -/
theorem inspect_geek_guard (token : String) (st : CogState) (aid : Nat)
    (input : String) (ex ex2 : Execution)
    (hne : aid ≠ GEEK_ID) :
    ((jsk_python_inspect token st GEEK_ID input ex).1 = st
      ∧ (jsk_python_inspect token st GEEK_ID input ex).2
        = [Emission.send Dest.channel geekRefusal]
      ∧ jsk_python_inspect token st GEEK_ID input ex
        = jsk_python_inspect token st GEEK_ID input ex2)
    ∧ jsk_python_inspect token st aid input ex = jskInspectBody token st input ex := by
  constructor
  · refine ⟨?_, ?_, ?_⟩ <;> simp [jsk_python_inspect]
  · simp [jsk_python_inspect, hne]

/-- Witness for `inspect_geek_guard` at author id 0 and two different
executions. -/
theorem inspect_geek_guard_witness :
    (0 : Nat) ≠ GEEK_ID
    ∧ (((jsk_python_inspect ("T") initialCogState GEEK_ID ("i")
          { assigns := [], results := [] }).1 = initialCogState
      ∧ (jsk_python_inspect ("T") initialCogState GEEK_ID ("i")
          { assigns := [], results := [] }).2
        = [Emission.send Dest.channel geekRefusal]
      ∧ jsk_python_inspect ("T") initialCogState GEEK_ID ("i")
          { assigns := [], results := [] }
        = jsk_python_inspect ("T") initialCogState GEEK_ID ("i")
          { assigns := [], results := [PyResult.pystr ("a")] })
    ∧ jsk_python_inspect ("T") initialCogState 0 ("i")
        { assigns := [], results := [] }
      = jskInspectBody ("T") initialCogState ("i")
        { assigns := [], results := [] }) :=
  ⟨by decide,
   inspect_geek_guard ("T") initialCogState 0 ("i")
     { assigns := [], results := [] }
     { assigns := [], results := [PyResult.pystr ("a")] } (by decide)⟩
